import Mathlib

/-! Shallow embedding of `src/dot_tools/gemini-pr-review.py`.

The script is a linear pipeline that shells out to `gh`, `git` and a `gemini`
review agent.  External commands are modelled as oracle results (`CmdResult`):
the environment (`Env`) fixes the outcome of every external command the run can
issue.  Ambient mutable state touched by the script — the host repository's
remote list and the worktree directory — is threaded explicitly (`GitState`).
`sys.exit(1)` after an error message, and an uncaught Python exception, are both
modelled as an `Except.error` outcome of the run (the process terminates with a
non-zero status either way).
-/

namespace GeminiPrReview

/-- Outcome of one external command, as seen by `subprocess.run`. -/
structure CmdResult where
  returncode : Int
  stdout : String
  stderr : String
deriving Repr, DecidableEq

/-- The failure modes of the script (spec section 7 taxonomy).
`commandExecution` is any external command returning non-zero (the script
prints the error and calls `sys.exit(1)`); `malformedPullRequest` is the
`KeyError` raised when a fork PR's metadata lacks the owner login;
`missingReport` is the missing-output-file failure at step 5. -/
inductive ToolError where
  | commandExecution (cmd : String) (stderr : String)
  | malformedPullRequest
  | missingReport
deriving Repr, DecidableEq

/-- Python's `str.strip()`: drop leading and trailing whitespace, embedded as
a code-point–level operation. -/
def str_strip (s : String) : String :=
  String.mk
    (((s.data.dropWhile Char.isWhitespace).reverse.dropWhile
        Char.isWhitespace).reverse)

/-- The function `run_command` (source lines 20–28): run the command; if the return code is
non-zero, print the error and `sys.exit(1)` (modelled as `Except.error`),
otherwise return `result.stdout.strip()`. -/
def run_command (cmd : String) (r : CmdResult) : Except ToolError String :=
  if r.returncode ≠ 0 then
    Except.error (ToolError.commandExecution cmd r.stderr)
  else
    Except.ok (str_strip r.stdout)

/-- One entry of the PR's `files` list (only the `path` field is read). -/
structure FileInfo where
  path : String
deriving Repr, DecidableEq

/-- The PR metadata object parsed from `gh pr view --json ...`.  Fields the
script reads with `.get(...)` or that may be missing from the JSON are
`Option`s; `headRepositoryOwner` stands for the nested
`["headRepositoryOwner"]["login"]` lookup (absent ⇒ `none`). -/
structure PRInfo where
  headRefName : String
  title : String
  files : Option (List FileInfo)
  isCrossRepository : Option Bool
  headRepositoryOwner : Option String
deriving Repr, DecidableEq

/-- Command-line arguments (source lines 32–48). -/
structure Args where
  pr_number : String
  use_existing_worktree : Bool
  work_dir : Option String
  output_dir : Option String
deriving Repr, DecidableEq

/-- Python's single-character `str.replace("/", "-")` (source line 63; the
script's `branch_dir_postfix` variable), embedded as a code-point map: every
`/` becomes `-`, all else unchanged. -/
def branch_dir_tail (branch_name : String) : String :=
  String.mk (branch_name.data.map (fun c => if c = '/' then '-' else c))

/-- Embedding of `Path(p).name`: the last `/`-separated component of a path string, i.e.
the code points after the final `/` (source line 68). -/
def path_name (p : String) : String :=
  String.mk ((p.data.reverse.takeWhile (fun c => c ≠ '/')).reverse)

/-- The worktree directory (source lines 69–70):
`<git_top_dir>/temp/<repo_name>-<branch name with slashes replaced>`.
`Path` joins are embedded as `"/"`-concatenation. -/
def worktree_path (git_top_dir repo_name branch_name : String) : String :=
  git_top_dir ++ "/temp/" ++ repo_name ++ "-" ++ branch_dir_tail branch_name

/-- The fork remote name, a fixed prefix plus the owner login
(source line 83). -/
def fork_remote_name (fork_owner : String) : String :=
  "fork-" ++ fork_owner

/-- The fork URL, GitHub SSH convention with the primary repository's name
(source line 84). -/
def fork_url (fork_owner repo_name : String) : String :=
  "git@github.com:" ++ fork_owner ++ "/" ++ repo_name ++ ".git"

/-- Python's `str.startswith` is a code-point prefix test; embedded at the
`List Char` level (source lines 138, 140). -/
def str_startswith (s pre : String) : Bool :=
  pre.data.isPrefixOf s.data

/-- Oracle for the outcomes of all external commands a run can issue, plus the
filesystem facts the script queries.  `pr_info` is the `json.loads` parse of
`pr_view`'s stdout (JSON decoding itself is abstracted). -/
structure Env where
  pr_view : CmdResult
  pr_info : PRInfo
  rev_parse : CmdResult
  git_remote : CmdResult
  remote_add : CmdResult
  fetch_fork : CmdResult
  fetch_origin : CmdResult
  wt_remove : CmdResult
  wt_add : CmdResult
  review_path_exists : Bool
  gemini_exit : Int
  review_file_exists : Bool
  cwd : String
deriving Repr, DecidableEq

/-- Ambient mutable state owned by the host repository: its remote list and
the worktree directory (`none` = absent, `some r` = present with HEAD checked
out at reference `r`). -/
structure GitState where
  remotes : List String
  worktree : Option String
deriving Repr, DecidableEq

/-- Idempotent remote registration (source lines 90–93): `git remote add` runs
only when `fork_remote_name` is not among the existing remotes; a successful
add appends the name to the remote list.  Returns the remote list after the
step, or the command failure. -/
def register_remote (existing_remotes : List String) (name url : String)
    (remote_add : CmdResult) : Except ToolError (List String) :=
  if name ∉ existing_remotes then
    match run_command ("git remote add " ++ name ++ " " ++ url) remote_add with
    | Except.error e => Except.error e
    | Except.ok _ => Except.ok (existing_remotes ++ [name])
  else
    Except.ok existing_remotes

/-- Remote/branch resolution (source lines 81–104).  Fork case: require the
owner login (a missing key raises, modelled as `malformedPullRequest`), read
the remote list, register the fork remote if absent, fetch from it, and return
`fork-<owner>/<branch>`.  Non-fork case: `git fetch` and return the bare branch
name.  The stdout of `git remote` is the newline-joined remote list, which the
script splits back into the list, so `existing_remotes` is modelled as the
ambient remote list directly.  Returns the resolution outcome together with
the remote list after the step (unchanged on every path that does not add). -/
def resolve_branch (pr_info : PRInfo) (repo_name : String) (env : Env)
    (remotes : List String) : Except ToolError String × List String :=
  let is_fork_pr := pr_info.isCrossRepository.getD false
  if is_fork_pr then
    match pr_info.headRepositoryOwner with
    | none => (Except.error ToolError.malformedPullRequest, remotes)
    | some fork_owner =>
      match run_command "git remote" env.git_remote with
      | Except.error e => (Except.error e, remotes)
      | Except.ok _ =>
        match register_remote remotes (fork_remote_name fork_owner)
            (fork_url fork_owner repo_name) env.remote_add with
        | Except.error e => (Except.error e, remotes)
        | Except.ok remotes' =>
          match run_command ("git fetch " ++ fork_remote_name fork_owner)
              env.fetch_fork with
          | Except.error e => (Except.error e, remotes')
          | Except.ok _ =>
            (Except.ok (fork_remote_name fork_owner ++ "/" ++ pr_info.headRefName),
              remotes')
  else
    match run_command "git fetch" env.fetch_origin with
    | Except.error e => (Except.error e, remotes)
    | Except.ok _ => (Except.ok pr_info.headRefName, remotes)

/-- Result of the worktree step: the worktree directory state afterwards and
which actions ran. -/
structure WorktreeOutcome where
  err : Option ToolError
  fs : Option String
  removed : Bool
  created : Bool
deriving Repr, DecidableEq

/-- Worktree lifecycle (source lines 110–121).  `fs` is the worktree directory
before the step (`fs.isSome` = `worktree_dir.exists()`).  If not reusing and
the directory exists, `git worktree remove --force` runs, after which the
existence re-check is false; then `git worktree add` runs whenever the
directory does not exist, leaving HEAD at `branch_ref`; otherwise the existing
directory is used as-is. -/
def manage_worktree (use_existing : Bool) (wt_dir branch_ref : String)
    (wt_remove wt_add : CmdResult) (fs : Option String) : WorktreeOutcome :=
  if ¬use_existing ∧ fs.isSome then
    match run_command ("git worktree remove " ++ wt_dir ++ " --force") wt_remove with
    | Except.error e => { err := some e, fs := fs, removed := false, created := false }
    | Except.ok _ =>
      match run_command ("git worktree add " ++ wt_dir ++ " " ++ branch_ref) wt_add with
      | Except.error e => { err := some e, fs := none, removed := true, created := false }
      | Except.ok _ =>
        { err := none, fs := some branch_ref, removed := true, created := true }
  else
    if fs.isNone then
      match run_command ("git worktree add " ++ wt_dir ++ " " ++ branch_ref) wt_add with
      | Except.error e => { err := some e, fs := none, removed := false, created := false }
      | Except.ok _ =>
        { err := none, fs := some branch_ref, removed := false, created := true }
    else
      { err := none, fs := fs, removed := false, created := false }

/-- The changed-file counting loop (source lines 133–141): count paths that
start with `cli/`; `elif`, count paths that start with `webapp/`. -/
def count_changes (files : List FileInfo) : Nat × Nat :=
  files.foldl
    (fun acc file_info =>
      if str_startswith file_info.path "cli/" then (acc.1 + 1, acc.2)
      else if str_startswith file_info.path "webapp/" then (acc.1, acc.2 + 1)
      else acc)
    (0, 0)

/-- The auto-detection heuristic (source lines 147–152): `"cli"` when the cli
count is strictly greater, else `"webapp"`. -/
def auto_detect_review_dir (files : List FileInfo) : String :=
  let counts := count_changes files
  if counts.1 > counts.2 then "cli" else "webapp"

/-- Review-directory choice (source lines 127–152): an explicit `--work-dir`
wins; otherwise the heuristic runs on `pr_info.get("files", [])`. -/
def determine_review_dir (work_dir : Option String) (files : List FileInfo) :
    String :=
  match work_dir with
  | some d => d
  | none => auto_detect_review_dir files

/-- Review-path fallback (source lines 156–161): use
`<worktree_dir>/<review_dir>` when that path exists, else fall back to the
worktree root with a warning. -/
def resolve_review_path (wt_dir review_dir : String)
    (review_path_exists : Bool) : String :=
  if review_path_exists then wt_dir ++ "/" ++ review_dir else wt_dir

/-- Result relocation (source lines 173–186): the expected file is
`<review_path>/GEMINI_REVIEW_PR<id>.md`; when present it is renamed to
`<output_dir>/GEMINI_REVIEW_PR<id>.md`, when absent the script warns and
exits 1. -/
def relocate_review (review_path output_dir pr_number : String)
    (review_file_exists : Bool) : Except ToolError (String × String) :=
  let review_file := review_path ++ "/GEMINI_REVIEW_PR" ++ pr_number ++ ".md"
  let target_file := output_dir ++ "/GEMINI_REVIEW_PR" ++ pr_number ++ ".md"
  if review_file_exists then
    Except.ok (review_file, target_file)
  else
    Except.error ToolError.missingReport

/-- Values computed by a fully successful run. -/
structure RunResult where
  branch_ref : String
  worktree_dir : String
  review_dir : String
  review_path : String
  target_file : String
deriving Repr, DecidableEq

deriving instance DecidableEq for Except

/-- Observable outcome of a run: the process result plus the ambient state
left behind (remotes, worktree) and the rename performed, if any.
`gemini_ran` records whether the review agent subprocess was launched. -/
structure Outcome where
  result : Except ToolError RunResult
  remotes : List String
  worktree : Option String
  moved : Option (String × String)
  gemini_ran : Bool
deriving Repr, DecidableEq

/-- The entry point `main` (source lines 31–188), as a function of the arguments, the
command-outcome oracle and the initial ambient state.  Each `Except.error`
models the script terminating with a non-zero exit status at that point.
The `gemini` subprocess (line 171) is launched via plain `subprocess.run`
with no return-code check, so `env.gemini_exit` is never consulted. -/
def main (args : Args) (env : Env) (st : GitState) : Outcome :=
  let pr_number := args.pr_number
  match run_command
      ("gh pr view " ++ pr_number ++
        " --json headRefName,title,files,isCrossRepository,headRepositoryOwner")
      env.pr_view with
  | Except.error e =>
    { result := Except.error e, remotes := st.remotes, worktree := st.worktree,
      moved := none, gemini_ran := false }
  | Except.ok _pr_info_json =>
    let pr_info := env.pr_info
    let branch_name := pr_info.headRefName
    match run_command "git rev-parse --show-toplevel" env.rev_parse with
    | Except.error e =>
      { result := Except.error e, remotes := st.remotes, worktree := st.worktree,
        moved := none, gemini_ran := false }
    | Except.ok git_top_dir =>
      let repo_name := path_name git_top_dir
      let wt_dir := worktree_path git_top_dir repo_name branch_name
      match resolve_branch pr_info repo_name env st.remotes with
      | (Except.error e, remotes') =>
        { result := Except.error e, remotes := remotes', worktree := st.worktree,
          moved := none, gemini_ran := false }
      | (Except.ok branch_ref, remotes') =>
        -- temp_dir_for_ws.mkdir(exist_ok=True): no failure mode is modelled
        let wo := manage_worktree args.use_existing_worktree wt_dir branch_ref
          env.wt_remove env.wt_add st.worktree
        match wo.err with
        | some e =>
          { result := Except.error e, remotes := remotes', worktree := wo.fs,
            moved := none, gemini_ran := false }
        | none =>
          let review_dir := determine_review_dir args.work_dir
            (pr_info.files.getD [])
          let review_path := resolve_review_path wt_dir review_dir
            env.review_path_exists
          -- subprocess.run(["gemini", "-y", "-p", prompt], cwd=review_path):
          -- synchronous, exit code not checked
          let output_dir := match args.output_dir with
            | some d => d
            | none => env.cwd
          match relocate_review review_path output_dir pr_number
              env.review_file_exists with
          | Except.error e =>
            { result := Except.error e, remotes := remotes', worktree := wo.fs,
              moved := none, gemini_ran := true }
          | Except.ok (src, tgt) =>
            { result := Except.ok
                { branch_ref := branch_ref, worktree_dir := wt_dir,
                  review_dir := review_dir, review_path := review_path,
                  target_file := tgt },
              remotes := remotes', worktree := wo.fs,
              moved := some (src, tgt), gemini_ran := true }

/-! Helper lemmas shared by the claim theorems. -/

/-- A successful command returns its stripped stdout. -/
theorem run_command_rc_ok (cmd : String) (r : CmdResult)
    (h : r.returncode = 0) :
    run_command cmd r = Except.ok (str_strip r.stdout) := by
  simp [run_command, h]

/-- A path cannot start with both `cli/` and `webapp/`. -/
theorem cli_webapp_disjoint (s : String) :
    str_startswith s "cli/" = true → str_startswith s "webapp/" = false := by
  intro h
  cases hw : str_startswith s "webapp/"
  · rfl
  · exfalso
    rcases List.isPrefixOf_iff_prefix.mp h with ⟨t, ht⟩
    rcases List.isPrefixOf_iff_prefix.mp hw with ⟨u, hu⟩
    rw [← ht] at hu
    have h1 : "webapp/".data = 'w' :: "ebapp/".data := rfl
    have h2 : "cli/".data = 'c' :: "li/".data := rfl
    rw [h1, h2] at hu
    simp only [List.cons_append, List.cons.injEq] at hu
    exact absurd hu.1 (by decide)

/-- The counting loop, unrolled: it computes the two `countP`s on top of the
starting accumulator.  The `elif` in the loop makes the webapp branch count
only non-`cli/` paths, but no path starts with both, so this is the plain
`webapp/` count. -/
theorem count_changes_fold (files : List FileInfo) :
    ∀ acc : Nat × Nat,
      files.foldl
          (fun acc file_info =>
            if str_startswith file_info.path "cli/" then (acc.1 + 1, acc.2)
            else if str_startswith file_info.path "webapp/" then
              (acc.1, acc.2 + 1)
            else acc)
          acc =
        (acc.1 + files.countP (fun f => str_startswith f.path "cli/"),
          acc.2 + files.countP (fun f => str_startswith f.path "webapp/")) := by
  induction files with
  | nil => intro acc; simp
  | cons f fs ih =>
    intro acc
    by_cases h1 : str_startswith f.path "cli/"
    · have h2 := cli_webapp_disjoint f.path h1
      simp [h1, h2, ih, List.countP_cons]
      omega
    · by_cases h2 : str_startswith f.path "webapp/"
      · simp [h1, h2, ih, List.countP_cons]
        omega
      · simp [h1, h2, ih, List.countP_cons]

/-- The two counters of the loop are the two prefix counts. -/
theorem count_changes_eq (files : List FileInfo) :
    count_changes files =
      (files.countP (fun f => str_startswith f.path "cli/"),
        files.countP (fun f => str_startswith f.path "webapp/")) := by
  have h := count_changes_fold files (0, 0)
  simpa [count_changes] using h

/-- Registration under a successful `git remote add`: the name is appended
exactly when it was absent. -/
theorem register_remote_rc_ok (remotes : List String) (n u : String)
    (ra : CmdResult) (h : ra.returncode = 0) :
    register_remote remotes n u ra =
      Except.ok (if n ∈ remotes then remotes else remotes ++ [n]) := by
  by_cases hm : n ∈ remotes <;> simp [register_remote, hm, run_command, h]

/-- When every git command involved succeeds and a fork PR carries its owner,
branch resolution succeeds. -/
theorem resolve_branch_success (pr : PRInfo) (repo_name : String) (env : Env)
    (remotes : List String)
    (hgr : env.git_remote.returncode = 0)
    (hra : env.remote_add.returncode = 0)
    (hff : env.fetch_fork.returncode = 0)
    (hfo : env.fetch_origin.returncode = 0)
    (howner : pr.isCrossRepository.getD false = true →
      pr.headRepositoryOwner.isSome = true) :
    ∃ (ref : String) (rs : List String),
      resolve_branch pr repo_name env remotes = (Except.ok ref, rs) := by
  by_cases hf : pr.isCrossRepository.getD false = true
  · rcases Option.isSome_iff_exists.mp (howner hf) with ⟨owner, ho⟩
    refine ⟨fork_remote_name owner ++ "/" ++ pr.headRefName,
      if fork_remote_name owner ∈ remotes then remotes
        else remotes ++ [fork_remote_name owner], ?_⟩
    simp [resolve_branch, hf, ho, run_command, hgr, hff,
      register_remote_rc_ok _ _ _ _ hra]
  · simp only [Bool.not_eq_true] at hf
    refine ⟨pr.headRefName, remotes, ?_⟩
    simp [resolve_branch, hf, run_command, hfo]

/-- The worktree step under successful git commands, in closed form. -/
theorem manage_worktree_rc_ok (use_existing : Bool) (wt_dir branch_ref : String)
    (rm ad : CmdResult) (fs : Option String)
    (hrm : rm.returncode = 0) (had : ad.returncode = 0) :
    manage_worktree use_existing wt_dir branch_ref rm ad fs =
      { err := none,
        fs := if use_existing = true ∧ fs.isSome = true then fs
          else some branch_ref,
        removed := !use_existing && fs.isSome,
        created := !(use_existing && fs.isSome) } := by
  cases use_existing <;> cases fs <;>
    simp [manage_worktree, run_command, hrm, had]

/-- The run never consults the review agent's exit code. -/
theorem main_gemini_exit_irrelevant (args : Args) (env : Env) (st : GitState)
    (g : Int) :
    main args { env with gemini_exit := g } st = main args env st := by
  cases env
  rfl

/-- A fork PR without the owner login fails resolution immediately. -/
theorem resolve_branch_missing_owner (pr : PRInfo) (repo_name : String)
    (env : Env) (remotes : List String)
    (hf : pr.isCrossRepository.getD false = true)
    (ho : pr.headRepositoryOwner = none) :
    resolve_branch pr repo_name env remotes =
      (Except.error ToolError.malformedPullRequest, remotes) := by
  simp [resolve_branch, hf, ho]

/-! Witness fixtures: a fully successful command environment and sample PR
metadata. -/

/-- A command result with return code zero. -/
def cmd_ok : CmdResult := ⟨0, "", ""⟩

/-- Default arguments: review PR 42, no flags. -/
def args_w : Args := ⟨"42", false, none, none⟩

/-- Initial ambient state: one remote, no worktree directory. -/
def st_w : GitState := ⟨["origin"], none⟩

/-- An environment in which every external command succeeds. -/
def env_of (pr : PRInfo) : Env :=
  ⟨cmd_ok, pr, ⟨0, "/h/repo", ""⟩, cmd_ok, cmd_ok, cmd_ok, cmd_ok, cmd_ok,
    cmd_ok, true, 0, true, "/cwd"⟩

/-- A fork PR by `alice`. -/
def pr_fork : PRInfo := ⟨"feat/x", "t", some [⟨"cli/a.go"⟩], some true, some "alice"⟩

/-- PR metadata lacking the `isCrossRepository` field. -/
def pr_nofork : PRInfo := ⟨"feat/x", "t", some [], none, none⟩

/-- A fork PR whose metadata lacks the owner login. -/
def pr_noowner : PRInfo := ⟨"feat/x", "t", some [], some true, none⟩

/-! Claim theorems. -/

/-- C2: fork-case branch resolution.  For a fork PR with the owner present
and successful git commands, the remote name is the fixed prefix `fork-` plus
the owner login, the fork URL is `git@github.com:<owner>/<repo>.git` with the
primary repository's name, and the resolved branch reference is
`<remote_name>/<branch_name>`; for a non-fork PR the bare branch name is
returned. -/
theorem fork_branch_resolution :
    ∀ (pr : PRInfo) (repo_name owner : String) (env : Env)
      (remotes : List String),
      pr.isCrossRepository.getD false = true →
      pr.headRepositoryOwner = some owner →
      env.git_remote.returncode = 0 →
      env.remote_add.returncode = 0 →
      env.fetch_fork.returncode = 0 →
      (fork_remote_name owner = "fork-" ++ owner ∧
        fork_url owner repo_name =
          "git@github.com:" ++ owner ++ "/" ++ repo_name ++ ".git" ∧
        (resolve_branch pr repo_name env remotes).1 =
          Except.ok (fork_remote_name owner ++ "/" ++ pr.headRefName)) ∧
      (∀ (pr2 : PRInfo) (env2 : Env) (remotes2 : List String),
        pr2.isCrossRepository.getD false = false →
        env2.fetch_origin.returncode = 0 →
        (resolve_branch pr2 repo_name env2 remotes2).1 =
          Except.ok pr2.headRefName) := by
  intro pr repo owner env remotes hfork howner hgr hra hff
  constructor
  · refine ⟨rfl, rfl, ?_⟩
    simp [resolve_branch, hfork, howner, run_command, hgr, hff,
      register_remote_rc_ok _ _ _ _ hra]
  · intro pr2 env2 remotes2 hnf hfo
    simp [resolve_branch, hnf, run_command, hfo]

/-- Closed witness for C2: the fork PR by `alice` resolves to
`fork-alice/feat/x`. -/
theorem fork_branch_resolution_witness :
    (resolve_branch pr_fork "repo" (env_of pr_fork) ["origin"]).1 =
      Except.ok (fork_remote_name "alice" ++ "/" ++ pr_fork.headRefName) :=
  (fork_branch_resolution pr_fork "repo" "alice" (env_of pr_fork) ["origin"]
    rfl rfl rfl rfl rfl).1.2.2

/-- C10: PR metadata lacking the `isCrossRepository` field is treated as a
non-fork PR — the resolved branch reference is the bare branch name, the
remote list is left unchanged (no fork remote is registered), and the outcome
does not depend on the fork-remote `git remote add` and `git fetch` command
results (neither command is consulted). -/
theorem missing_fork_flag_nonfork :
    ∀ (pr : PRInfo) (repo_name : String) (env : Env) (remotes : List String),
      pr.isCrossRepository = none →
      env.fetch_origin.returncode = 0 →
      resolve_branch pr repo_name env remotes =
        (Except.ok pr.headRefName, remotes) ∧
      (∀ ff ra : CmdResult,
        resolve_branch pr repo_name
          { env with fetch_fork := ff, remote_add := ra } remotes =
          resolve_branch pr repo_name env remotes) := by
  intro pr repo env remotes hnone hfo
  constructor
  · simp [resolve_branch, hnone, run_command, hfo]
  · intro ff ra
    cases env
    simp [resolve_branch, hnone]

/-- Closed witness for C10 on PR metadata without `isCrossRepository`. -/
theorem missing_fork_flag_nonfork_witness :
    resolve_branch pr_nofork "repo" (env_of pr_nofork) ["origin"] =
      (Except.ok pr_nofork.headRefName, ["origin"]) :=
  (missing_fork_flag_nonfork pr_nofork "repo" (env_of pr_nofork) ["origin"]
    rfl rfl).1

/-- C5: a fork PR whose metadata lacks the owner field makes the tool signal
the malformed-pull-request failure: the run terminates with a non-zero status
(the `Except.error` outcome models the printed error followed by process
termination), no file is moved, and the review agent is never launched. -/
theorem fork_missing_owner_fails :
    ∀ (args : Args) (env : Env) (st : GitState),
      env.pr_view.returncode = 0 →
      env.rev_parse.returncode = 0 →
      env.pr_info.isCrossRepository.getD false = true →
      env.pr_info.headRepositoryOwner = none →
      (main args env st).result =
        Except.error ToolError.malformedPullRequest ∧
      (main args env st).moved = none ∧
      (main args env st).gemini_ran = false := by
  intro args env st hpv hrp hf ho
  refine ⟨?_, ?_, ?_⟩ <;>
    simp [main, run_command, hpv, hrp, resolve_branch_missing_owner, hf, ho]

/-- Closed witness for C5. -/
theorem fork_missing_owner_fails_witness :
    (main args_w (env_of pr_noowner) st_w).result =
      Except.error ToolError.malformedPullRequest ∧
    (main args_w (env_of pr_noowner) st_w).moved = none ∧
    (main args_w (env_of pr_noowner) st_w).gemini_ran = false :=
  fork_missing_owner_fails args_w (env_of pr_noowner) st_w rfl rfl rfl rfl

/-- C9: an explicit `--work-dir` overrides the changed-file heuristic
unconditionally, whatever the changed files are; a review path that does not
exist inside the worktree falls back to the worktree root; and the step never
fails — an otherwise successful run with a missing review directory still
completes, reviewing from the worktree root. -/
theorem work_dir_override_and_fallback :
    (∀ (d : String) (files : List FileInfo),
      determine_review_dir (some d) files = d) ∧
    (∀ wt_dir review_dir : String,
      resolve_review_path wt_dir review_dir false = wt_dir ∧
      resolve_review_path wt_dir review_dir true =
        wt_dir ++ "/" ++ review_dir) ∧
    (∀ (args : Args) (env : Env) (st : GitState),
      env.pr_view.returncode = 0 → env.rev_parse.returncode = 0 →
      env.git_remote.returncode = 0 → env.remote_add.returncode = 0 →
      env.fetch_fork.returncode = 0 → env.fetch_origin.returncode = 0 →
      env.wt_remove.returncode = 0 → env.wt_add.returncode = 0 →
      (env.pr_info.isCrossRepository.getD false = true →
        env.pr_info.headRepositoryOwner.isSome = true) →
      env.review_path_exists = false →
      env.review_file_exists = true →
      ∃ res : RunResult,
        (main args env st).result = Except.ok res ∧
        res.review_path = res.worktree_dir) := by
  refine ⟨fun d files => rfl, fun wt rd => ⟨rfl, rfl⟩, ?_⟩
  intro args env st hpv hrp hgr hra hff hfo hwr hwa howner hrpe hrfe
  obtain ⟨ref, rs, hres⟩ := resolve_branch_success env.pr_info
    (path_name (str_strip env.rev_parse.stdout)) env st.remotes
    hgr hra hff hfo howner
  refine ⟨{ branch_ref := ref,
            worktree_dir := worktree_path (str_strip env.rev_parse.stdout)
              (path_name (str_strip env.rev_parse.stdout))
              env.pr_info.headRefName,
            review_dir := determine_review_dir args.work_dir
              (env.pr_info.files.getD []),
            review_path := worktree_path (str_strip env.rev_parse.stdout)
              (path_name (str_strip env.rev_parse.stdout))
              env.pr_info.headRefName,
            target_file := (match args.output_dir with
              | some d => d
              | none => env.cwd) ++ "/GEMINI_REVIEW_PR" ++
              args.pr_number ++ ".md" }, ?_, rfl⟩
  simp [main, run_command, hpv, hrp, hres, manage_worktree_rc_ok, hwr, hwa,
    resolve_review_path, hrpe, relocate_review, hrfe]

/-- An all-success environment whose selected review directory is missing
from the worktree. -/
def env_no_dir : Env := { env_of pr_nofork with review_path_exists := false }

/-- Closed witness for C9: with the review directory absent, the run still
succeeds and reviews from the worktree root. -/
theorem work_dir_override_and_fallback_witness :
    ∃ res : RunResult,
      (main args_w env_no_dir st_w).result = Except.ok res ∧
      res.review_path = res.worktree_dir :=
  work_dir_override_and_fallback.2.2 args_w env_no_dir st_w
    rfl rfl rfl rfl rfl rfl rfl rfl (by decide) rfl rfl

/-- C6: if the expected report file `GEMINI_REVIEW_PR<id>.md` is absent from
the review directory after the review agent exits — whatever the agent's exit
code — the run terminates with a non-zero status and performs no move; when
the file is present, it is renamed from the review directory to
`<output_dir>/GEMINI_REVIEW_PR<id>.md`, where `output_dir` defaults to the
current working directory when `--output-dir` is not given. -/
theorem report_relocation :
    ∀ (args : Args) (env : Env) (st : GitState),
      env.pr_view.returncode = 0 → env.rev_parse.returncode = 0 →
      env.git_remote.returncode = 0 → env.remote_add.returncode = 0 →
      env.fetch_fork.returncode = 0 → env.fetch_origin.returncode = 0 →
      env.wt_remove.returncode = 0 → env.wt_add.returncode = 0 →
      (env.pr_info.isCrossRepository.getD false = true →
        env.pr_info.headRepositoryOwner.isSome = true) →
      (env.review_file_exists = false →
        ∀ g : Int,
          (main args { env with gemini_exit := g } st).result =
            Except.error ToolError.missingReport ∧
          (main args { env with gemini_exit := g } st).moved = none) ∧
      (env.review_file_exists = true →
        ∃ res : RunResult,
          (main args env st).result = Except.ok res ∧
          res.target_file =
            (match args.output_dir with
              | some d => d
              | none => env.cwd) ++ "/GEMINI_REVIEW_PR" ++
              args.pr_number ++ ".md" ∧
          (main args env st).moved =
            some (res.review_path ++ "/GEMINI_REVIEW_PR" ++
              args.pr_number ++ ".md", res.target_file) ∧
          (args.output_dir = none →
            res.target_file =
              env.cwd ++ "/GEMINI_REVIEW_PR" ++ args.pr_number ++ ".md")) := by
  intro args env st hpv hrp hgr hra hff hfo hwr hwa howner
  obtain ⟨ref, rs, hres⟩ := resolve_branch_success env.pr_info
    (path_name (str_strip env.rev_parse.stdout)) env st.remotes
    hgr hra hff hfo howner
  constructor
  · intro hrfe g
    rw [main_gemini_exit_irrelevant]
    constructor <;>
      simp [main, run_command, hpv, hrp, hres, manage_worktree_rc_ok,
        hwr, hwa, relocate_review, hrfe]
  · intro hrfe
    refine ⟨{ branch_ref := ref,
              worktree_dir := worktree_path (str_strip env.rev_parse.stdout)
                (path_name (str_strip env.rev_parse.stdout))
                env.pr_info.headRefName,
              review_dir := determine_review_dir args.work_dir
                (env.pr_info.files.getD []),
              review_path := resolve_review_path
                (worktree_path (str_strip env.rev_parse.stdout)
                  (path_name (str_strip env.rev_parse.stdout))
                  env.pr_info.headRefName)
                (determine_review_dir args.work_dir
                  (env.pr_info.files.getD []))
                env.review_path_exists,
              target_file := (match args.output_dir with
                | some d => d
                | none => env.cwd) ++ "/GEMINI_REVIEW_PR" ++
                args.pr_number ++ ".md" }, ?_, rfl, ?_, ?_⟩
    · simp [main, run_command, hpv, hrp, hres, manage_worktree_rc_ok,
        hwr, hwa, relocate_review, hrfe]
    · simp [main, run_command, hpv, hrp, hres, manage_worktree_rc_ok,
        hwr, hwa, relocate_review, hrfe]
    · intro hod
      rw [hod]

/-- Closed witness for C6 on the all-success environment (report present,
no `--output-dir`, so the file lands in the current working directory). -/
theorem report_relocation_witness :
    ∃ res : RunResult,
      (main args_w (env_of pr_nofork) st_w).result = Except.ok res ∧
      res.target_file =
        (match args_w.output_dir with
          | some d => d
          | none => (env_of pr_nofork).cwd) ++ "/GEMINI_REVIEW_PR" ++
          args_w.pr_number ++ ".md" ∧
      (main args_w (env_of pr_nofork) st_w).moved =
        some (res.review_path ++ "/GEMINI_REVIEW_PR" ++
          args_w.pr_number ++ ".md", res.target_file) ∧
      (args_w.output_dir = none →
        res.target_file =
          (env_of pr_nofork).cwd ++ "/GEMINI_REVIEW_PR" ++
            args_w.pr_number ++ ".md") :=
  (report_relocation args_w (env_of pr_nofork) st_w rfl rfl rfl rfl rfl rfl
    rfl rfl (by decide)).2 rfl

/-- The uniform fail-fast property exactly as claimed: every external command
that returns non-zero — the review agent included, since it is an external
command of the system — aborts the run. -/
def uniform_fail_fast : Prop :=
  ∀ (args : Args) (env : Env) (st : GitState),
    (main args env st).gemini_ran = true →
    env.gemini_exit ≠ 0 →
    (main args env st).result.isOk = false

/-- An environment identical to the all-success fixture except that the
review agent exits with status 2. -/
def env_gemini_fails : Env := { env_of pr_nofork with gemini_exit := 2 }

/-- C7 counterexample: uniform fail-fast over every external command is
false.  The review agent is launched by plain `subprocess.run` with no
return-code check (source line 171), so a run in which it exits with status 2
still completes successfully. -/
theorem uniform_fail_fast_refuted : ¬uniform_fail_fast := fun h =>
  absurd (h args_w env_gemini_fails st_w (by decide) (by decide)) (by decide)

/-- C7 amended: fail-fast holds for every external command executed through
`run_command` — all the git and gh commands — whose non-zero return aborts
immediately with the error text, with no retries and no rollback of
already-performed side effects: a registered fork remote persists after the
subsequent fetch from it fails, and a created worktree persists after the
missing-report failure.  The review agent subprocess is the sole exception:
its exit code is ignored entirely. -/
theorem fail_fast_run_command :
    (∀ (cmd : String) (r : CmdResult), r.returncode ≠ 0 →
      run_command cmd r =
        Except.error (ToolError.commandExecution cmd r.stderr)) ∧
    (∀ (args : Args) (env : Env) (st : GitState) (g : Int),
      main args { env with gemini_exit := g } st = main args env st) ∧
    (∀ (args : Args) (env : Env) (st : GitState) (owner : String),
      env.pr_view.returncode = 0 → env.rev_parse.returncode = 0 →
      env.pr_info.isCrossRepository.getD false = true →
      env.pr_info.headRepositoryOwner = some owner →
      env.git_remote.returncode = 0 → env.remote_add.returncode = 0 →
      fork_remote_name owner ∉ st.remotes →
      env.fetch_fork.returncode ≠ 0 →
      (main args env st).result =
        Except.error (ToolError.commandExecution
          ("git fetch " ++ fork_remote_name owner)
          env.fetch_fork.stderr) ∧
      fork_remote_name owner ∈ (main args env st).remotes) ∧
    (∀ (args : Args) (env : Env) (st : GitState),
      env.pr_view.returncode = 0 → env.rev_parse.returncode = 0 →
      env.git_remote.returncode = 0 → env.remote_add.returncode = 0 →
      env.fetch_fork.returncode = 0 → env.fetch_origin.returncode = 0 →
      env.wt_remove.returncode = 0 → env.wt_add.returncode = 0 →
      (env.pr_info.isCrossRepository.getD false = true →
        env.pr_info.headRepositoryOwner.isSome = true) →
      env.review_file_exists = false →
      (main args env st).result = Except.error ToolError.missingReport ∧
      (main args env st).worktree.isSome = true) := by
  refine ⟨?_, ?_, ?_, ?_⟩
  · intro cmd r h
    simp [run_command, h]
  · intro args env st g
    exact main_gemini_exit_irrelevant args env st g
  · intro args env st owner hpv hrp hf ho hgr hra hmem hff
    have hres : resolve_branch env.pr_info
        (path_name (str_strip env.rev_parse.stdout)) env st.remotes =
        (Except.error (ToolError.commandExecution
          ("git fetch " ++ fork_remote_name owner)
          env.fetch_fork.stderr),
          st.remotes ++ [fork_remote_name owner]) := by
      simp [resolve_branch, hf, ho, run_command, hgr, hff,
        register_remote_rc_ok _ _ _ _ hra, hmem]
    constructor <;> simp [main, run_command, hpv, hrp, hres]
  · intro args env st hpv hrp hgr hra hff hfo hwr hwa howner hrfe
    obtain ⟨ref, rs, hres⟩ := resolve_branch_success env.pr_info
      (path_name (str_strip env.rev_parse.stdout)) env st.remotes
      hgr hra hff hfo howner
    constructor
    · simp [main, run_command, hpv, hrp, hres, manage_worktree_rc_ok,
        hwr, hwa, relocate_review, hrfe]
    · have hfs : (if args.use_existing_worktree = true ∧
          st.worktree.isSome = true then st.worktree
          else some ref).isSome = true := by
        by_cases hc : args.use_existing_worktree = true ∧
          st.worktree.isSome = true
        · simp [hc, hc.2]
        · simp [hc]
      simp only [main, run_command_rc_ok _ _ hpv, run_command_rc_ok _ _ hrp,
        hres, manage_worktree_rc_ok _ _ _ _ _ _ hwr hwa]
      split <;> simpa using hfs

/-- Closed witness for the amended C7, exercising the `run_command` fail-fast
clause at a concrete failing command. -/
theorem fail_fast_run_command_witness :
    run_command "git fetch" ⟨1, "", "boom"⟩ =
      Except.error (ToolError.commandExecution "git fetch" "boom") :=
  fail_fast_run_command.1 "git fetch" ⟨1, "", "boom"⟩ (by decide)

/-- C4: for every repository name and branch name, the computed worktree path
is `<repo_root>/temp/<repo_name>-<branch_name with every path separator
replaced by a hyphen>`; no separator survives the replacement, and the path is
a pure function of (repository root, repository name, branch name). -/
theorem worktree_path_deterministic :
    ∀ (git_top_dir repo_name branch_name : String),
      worktree_path git_top_dir repo_name branch_name =
        git_top_dir ++ "/temp/" ++ repo_name ++ "-" ++
          branch_dir_tail branch_name ∧
      (branch_dir_tail branch_name).data =
        branch_name.data.map (fun c => if c = '/' then '-' else c) ∧
      '/' ∉ (branch_dir_tail branch_name).data ∧
      ∀ g2 r2 b2 : String, git_top_dir = g2 → repo_name = r2 →
        branch_name = b2 →
        worktree_path git_top_dir repo_name branch_name =
          worktree_path g2 r2 b2 := by
  intro g r b
  refine ⟨rfl, rfl, ?_, ?_⟩
  · intro hmem
    rcases List.mem_map.mp hmem with ⟨c, _, heq⟩
    by_cases h : c = '/'
    · rw [if_pos h] at heq
      exact absurd heq (by decide)
    · rw [if_neg h] at heq
      exact h heq
  · intro g2 r2 b2 hg hr hb
    rw [hg, hr, hb]

/-- Closed witness for C4 at a branch name containing two separators. -/
theorem worktree_path_deterministic_witness :
    worktree_path "/home/u/repo" "repo" "a/b/c" =
      "/home/u/repo" ++ "/temp/" ++ "repo" ++ "-" ++
        branch_dir_tail "a/b/c" ∧
    branch_dir_tail "a/b/c" = "a-b-c" :=
  ⟨(worktree_path_deterministic "/home/u/repo" "repo" "a/b/c").1, by decide⟩

/-- C3: remote registration is idempotent.  A first registration with a
successful `git remote add` returns an updated remote list in which the fork
remote occurs exactly once more than... precisely: its count becomes
`max 1` of its previous count; a second registration with the same owner is a
no-op that cannot fail (it returns the same list for every possible
`git remote add` outcome, since the command is never run). -/
theorem register_remote_idempotent :
    ∀ (remotes : List String) (owner url : String) (ra : CmdResult),
      ra.returncode = 0 →
      ∃ r1 : List String,
        register_remote remotes (fork_remote_name owner) url ra =
          Except.ok r1 ∧
        (∀ ra2 : CmdResult,
          register_remote r1 (fork_remote_name owner) url ra2 =
            Except.ok r1) ∧
        r1.count (fork_remote_name owner) =
          max 1 (remotes.count (fork_remote_name owner)) := by
  intro remotes owner url ra hra
  by_cases hmem : fork_remote_name owner ∈ remotes
  · refine ⟨remotes, ?_, ?_, ?_⟩
    · simp [register_remote, hmem]
    · intro ra2
      simp [register_remote, hmem]
    · have hpos : 0 < remotes.count (fork_remote_name owner) :=
        List.count_pos_iff.mpr hmem

      omega
  · refine ⟨remotes ++ [fork_remote_name owner], ?_, ?_, ?_⟩
    · simp [register_remote, hmem, run_command, hra]
    · intro ra2
      simp [register_remote]
    · have hz : remotes.count (fork_remote_name owner) = 0 :=
        List.count_eq_zero.mpr hmem
      simp [List.count_append, hz]

/-- Closed witness for C3: registering `fork-alice` twice starting from a
remote list that does not contain it. -/
theorem register_remote_idempotent_witness :
    ∃ r1 : List String,
      register_remote ["origin"] (fork_remote_name "alice") "u"
          ⟨0, "", ""⟩ = Except.ok r1 ∧
      (∀ ra2 : CmdResult,
        register_remote r1 (fork_remote_name "alice") "u" ra2 =
          Except.ok r1) ∧
      r1.count (fork_remote_name "alice") =
        max 1 (List.count (fork_remote_name "alice") ["origin"]) :=
  register_remote_idempotent ["origin"] "alice" "u" ⟨0, "", ""⟩ rfl

/-- C1: the Worktree Manager state machine.  When both worktree commands
succeed, the four (reuse, exists) combinations behave per the 4.3 table:
(reuse=false, exists=true) forcibly removes then creates fresh;
(reuse=false, exists=false) creates fresh; (reuse=true, exists=true) is a
no-op keeping the possibly stale checkout; (reuse=true, exists=false) creates
fresh.  Afterwards the worktree path always exists, and its HEAD is the
branch reference unless the reuse flag suppressed recreation. -/
theorem worktree_state_machine :
    ∀ (wt_dir branch_ref stale : String) (rm ad : CmdResult),
      rm.returncode = 0 → ad.returncode = 0 →
      manage_worktree false wt_dir branch_ref rm ad (some stale) =
        { err := none, fs := some branch_ref, removed := true,
          created := true } ∧
      manage_worktree false wt_dir branch_ref rm ad none =
        { err := none, fs := some branch_ref, removed := false,
          created := true } ∧
      manage_worktree true wt_dir branch_ref rm ad (some stale) =
        { err := none, fs := some stale, removed := false,
          created := false } ∧
      manage_worktree true wt_dir branch_ref rm ad none =
        { err := none, fs := some branch_ref, removed := false,
          created := true } ∧
      ∀ (use_existing : Bool) (fs : Option String),
        (manage_worktree use_existing wt_dir branch_ref rm ad fs).err =
          none ∧
        (manage_worktree use_existing wt_dir branch_ref rm ad
          fs).fs.isSome = true ∧
        (¬(use_existing = true ∧ fs.isSome = true) →
          (manage_worktree use_existing wt_dir branch_ref rm ad fs).fs =
            some branch_ref) := by
  intro wt_dir branch_ref stale rm ad hrm had
  refine ⟨?_, ?_, ?_, ?_, ?_⟩
  · simp [manage_worktree, run_command, hrm, had]
  · simp [manage_worktree, run_command, had]
  · simp [manage_worktree]
  · simp [manage_worktree, run_command, had]
  · intro use_existing fs
    cases use_existing <;> cases fs <;>
      simp [manage_worktree, run_command, hrm, had]

/-- Closed witness for C1 in the (reuse=false, exists=true) combination. -/
theorem worktree_state_machine_witness :
    manage_worktree false "/r/temp/repo-b" "b" ⟨0, "", ""⟩ ⟨0, "", ""⟩
        (some "old") =
      { err := none, fs := some "b", removed := true, created := true } :=
  (worktree_state_machine "/r/temp/repo-b" "b" "old" ⟨0, "", ""⟩ ⟨0, "", ""⟩
    rfl rfl).1

/-- C8: the Review-Directory Selector counts changed files under the two
known top-level directory names, picks `cli` only when its count is strictly
greater, and otherwise picks `webapp` — including on a tie or when both
counts are zero; the three concrete examples from the spec evaluate as
stated. -/
theorem review_dir_selector :
    (∀ files : List FileInfo,
      (count_changes files).1 =
        files.countP (fun f => str_startswith f.path "cli/") ∧
      (count_changes files).2 =
        files.countP (fun f => str_startswith f.path "webapp/") ∧
      auto_detect_review_dir files =
        (if files.countP (fun f => str_startswith f.path "cli/") >
            files.countP (fun f => str_startswith f.path "webapp/")
          then "cli" else "webapp")) ∧
    auto_detect_review_dir
        [⟨"cli/a.go"⟩, ⟨"cli/b.go"⟩, ⟨"webapp/c.ts"⟩] = "cli" ∧
    auto_detect_review_dir [⟨"webapp/a.ts"⟩] = "webapp" ∧
    auto_detect_review_dir [] = "webapp" := by
  refine ⟨?_, by decide, by decide, by decide⟩
  intro files
  have h := count_changes_eq files
  refine ⟨by rw [h], by rw [h], ?_⟩
  rw [auto_detect_review_dir, h]

end GeminiPrReview
